import Mathlib

/-!
Verification of the xmicro repository's specification against a shallow
embedding of its Go source.  Each section embeds one source file:

* `src/transport/grpc/handler.go` — the grpc transport's `Stream` method and
  its panic-recovery boundary.
* `src/unnamed/part_000` — the jaeger tracing wrappers (`StartSpanFromContext`,
  `otWrapper.Call/Stream/Publish`, `NewCallWrapper`, `NewHandlerWrapper`,
  `NewSubscriberWrapper`, the package `init`), and the server `Options` /
  `newOptions` / `WrapHandler` / `WrapSubscriber` code.
* `src/config/source/nacos/impl.go` — `resolvedGroup`, `PublishConfig`,
  `GetRule`, `Destroy`, `IsAvailable`, `NacosClient.stop/Close`.

Side effects of the Go code (span mutations, calls to a `next` function) are
made observable by threading an explicit event log (`List Ev`) through the
embedded functions; Go `nil`-able interface values become `Option`;
Go panics become an explicit outcome type recovered exactly where the source
recovers them.
-/

/- ### Errors (xmicro/errors package, as used by the grpc transport) -/

/-- An error value produced by the micro `errors` package: an id, an http-like
code and a detail string.  `errors.InternalServerError(id, format, args...)`
builds one with code 500. -/
structure MicroError where
  id : String
  code : Nat
  detail : String
deriving DecidableEq

/-- `errors.InternalServerError`: code 500 with the given id and detail. -/
def InternalServerError (id detail : String) : MicroError :=
  { id := id, code := 500, detail := detail }

/- ### src/transport/grpc/handler.go -/

/-- Outcome of running the socket-serving function `m.fn(sock)`: it either
returns normally or panics with a recovered value (rendered as a string, as
`fmt` would render the `recover()` result). -/
inductive HandlerOutcome where
  | ok
  | panicked (r : String)
deriving DecidableEq

/-- The `grpcTransportSocket` as visible at the `Stream` boundary: local and
remote addresses plus a closed flag (`sock.Close()` marks it closed). -/
structure GrpcSocket where
  localAddr : String
  remote : String
  closed : Bool
deriving DecidableEq

/-- `sock.Close()` on the grpc transport socket: marks the socket closed. -/
def GrpcSocket.close (s : GrpcSocket) : GrpcSocket :=
  { s with closed := true }

/-- `microTransport`: the address it serves and the socket-serving function
`fn`, whose invocation may panic (`HandlerOutcome`). -/
structure MicroTransport where
  addr : String
  fn : GrpcSocket → HandlerOutcome

/-- What `Stream` produced: the final state of the socket it built and the
`err` named return value.  Because the deferred `recover()` intercepts every
panic of `m.fn`, `Stream` is a total function: it returns this record for
every handler outcome, so a panic never propagates out of `Stream`. -/
structure StreamOutcome where
  sock : GrpcSocket
  err : Option MicroError
deriving DecidableEq

/-- `microTransport.Stream`: builds a `grpcTransportSocket` from the stream,
runs `m.fn(sock)`, and in the deferred block recovers any panic `r`, closes
the socket and sets the named return
`err = errors.InternalServerError("go.micro.transport", "panic recovered: %v", r)`.
On a normal return `err` keeps its zero value `nil`. -/
def MicroTransport.Stream (m : MicroTransport) (remote : String) : StreamOutcome :=
  let sock : GrpcSocket := { localAddr := m.addr, remote := remote, closed := false }
  match m.fn sock with
  | .ok => { sock := sock, err := none }
  | .panicked r =>
      { sock := sock.close
        err := some (InternalServerError "go.micro.transport" ("panic recovered: " ++ r)) }

/- ### src/config/source/nacos/impl.go — resolvedGroup / PublishConfig / GetRule -/

/-- Character-level body of `strings.ReplaceAll(group, "/", "-")`: both
pattern and replacement are single characters, so the replacement is a map
over the characters. -/
def slashToDash (c : Char) : Char :=
  if c = '/' then '-' else c

/-- `nacosDynamicConfiguration.resolvedGroup`: returns the group unchanged
when empty, otherwise replaces every `'/'` with `'-'`
(`'/'` is a special character for nacos). -/
def resolvedGroup (group : String) : String :=
  if group.length ≤ 0 then group
  else ⟨group.data.map slashToDash⟩

/-- The `vo.ConfigParam` handed to the underlying nacos sdk client. -/
structure ConfigParam where
  dataId : String
  group : String
  content : String
deriving DecidableEq

/-- The param `PublishConfig(key, group, value)` passes to
`(*n.client.Client()).PublishConfig`: dataId = key, group resolved, content =
value. -/
def publishConfigParam (key group value : String) : ConfigParam :=
  { dataId := key, group := resolvedGroup group, content := value }

/-- `nacosDynamicConfiguration.PublishConfig`: builds the param, calls the
client, wraps a client error, and turns an `ok = false` reply into the error
`"publish config to Nocos failed"`. -/
def PublishConfig (clientPublish : ConfigParam → Except String Bool)
    (key group value : String) : Option String :=
  match clientPublish (publishConfigParam key group value) with
  | .error e => some e
  | .ok ok => if ok then none else some "publish config to Nocos failed"

/-- The `config.Options` record folded from the variadic options of
`GetRule`. -/
structure CfgOptions where
  group : String
deriving DecidableEq

/-- The param `GetRule(key, opts...)` passes to
`(*n.client.Client()).GetConfig`: dataId = key, group = resolvedGroup of the
folded options' group, content left at its zero value. -/
def getRuleParam (key : String) (opts : List (CfgOptions → CfgOptions)) : ConfigParam :=
  let tmpOpts := opts.foldl (fun o f => f o) { group := "" }
  { dataId := key, group := resolvedGroup tmpOpts.group, content := "" }

/-- `nacosDynamicConfiguration.GetRule`: calls the client with
`getRuleParam`; an error is wrapped and the content dropped, otherwise the
content is returned. -/
def GetRule (clientGet : ConfigParam → Except String String)
    (key : String) (opts : List (CfgOptions → CfgOptions)) : Except String String :=
  match clientGet (getRuleParam key opts) with
  | .error e => .error e
  | .ok content => .ok content

/- ### src/unnamed/part_000 — jaeger tracing wrappers

Side effects (span mutations, invocations of the `next` function) are made
observable as an event log threaded through every embedded function. -/

/-- An observable event: an instrumentation marker emitted by a `next`
function under test, or a span operation performed by the tracing code
(`tracer.StartSpan`, `span.LogFields`, `span.SetTag`, `span.Finish`),
identified by the span's context string. -/
inductive Ev where
  | called (tag : String)
  | spanStart (sc name : String)
  | spanLog (sc field value : String)
  | spanTag (sc key value : String)
  | spanFinish (sc : String)
deriving DecidableEq

/-- Is this event an instrumentation marker for a call to `next`? -/
def isCalled : Ev → Bool
  | .called _ => true
  | _ => false

/-- Number of `next`-call markers in a log. -/
def countCalled (l : List Ev) : Nat := l.countP (fun e => isCalled e)

/-- Map/assoc-list update: replace the value under `k` if present, else
append the pair (the embedding of a Go `m[k] = v` map assignment, used both
for `metadata.Metadata` and for the component registry maps). -/
def assocSet {α : Type} (l : List (String × α)) (k : String) (v : α) :
    List (String × α) :=
  if l.any (fun p => p.1 = k) then l.map (fun p => if p.1 = k then (k, v) else p)
  else l ++ [(k, v)]

/-- Map/assoc-list lookup. -/
def assocLookup {α : Type} (l : List (String × α)) (k : String) : Option α :=
  (l.find? (fun p => p.1 = k)).map (fun p => p.2)

/-- Go's `unicode.IsSpace`-free separator test from `strings.Title` restricted
to ASCII: digits, ASCII letters and `'_'` are not separators, everything else
is. -/
def isSeparatorChar (c : Char) : Bool :=
  !(('0' ≤ c && c ≤ '9') || ('a' ≤ c && c ≤ 'z') || ('A' ≤ c && c ≤ 'Z') || c == '_')

/-- One step of `strings.Title`: upper-case a character that begins a word,
i.e. one whose predecessor (initially a space) is a separator. -/
def titleStep (acc : List Char × Char) (c : Char) : List Char × Char :=
  (acc.1 ++ [if isSeparatorChar acc.2 then c.toUpper else c], c)

/-- `strings.Title` (ASCII): the first character of every word mapped to
upper case. -/
def asciiTitle (s : String) : String :=
  ⟨(s.data.foldl titleStep ([], ' ')).1⟩

/-- An opentracing span as visible to this code: its span context
(`sp.Context()`), rendered as a string id.  Mutations of the span are
recorded as events. -/
structure Span where
  sc : String
deriving DecidableEq

/-- The `context.Context` slice this code reads and writes: the go-micro
metadata (absent when `metadata.FromContext` reports `!ok`) and the
in-process span installed by `opentracing.ContextWithSpan`. -/
structure Ctx where
  md : Option (List (String × String))
  span : Option Span
deriving DecidableEq

/-- `opentracing.StartSpanOption` as used here: only `opentracing.ChildOf`. -/
inductive StartSpanOption where
  | childOf (sc : String)
deriving DecidableEq

/-- An opentracing tracer: `Extract` reconstructs a span context from carrier
metadata (or fails), `StartSpan` allocates a span context from a name and
options, `Inject` serialises a span context into carrier key/value pairs (or
fails). -/
structure Tracer where
  extract : List (String × String) → Except String String
  newSpanContext : String → List StartSpanOption → String
  inject : String → Except String (List (String × String))

/-- The parent-selection step of `StartSpanFromContext`: if the context
carries an in-process span, append `ChildOf` of it; otherwise, if extracting
a span context from the context's metadata succeeds, append `ChildOf` of the
extracted context; otherwise leave the options unchanged. -/
def parentOpts (tracer : Tracer) (ctx : Ctx) (opts : List StartSpanOption) :
    List StartSpanOption :=
  match ctx.span with
  | some parentSpan => opts ++ [.childOf parentSpan.sc]
  | none =>
    match tracer.extract (ctx.md.getD []) with
    | .ok spanCtx => opts ++ [.childOf spanCtx]
    | .error _ => opts

/-- The metadata-update step of `StartSpanFromContext`: every pair the tracer
injected into the fresh carrier `nmd` is written into `md` under its
Title-cased key (`md.Set(strings.Title(k), v)`). -/
def injectMd (md nmd : List (String × String)) : List (String × String) :=
  nmd.foldl (fun m kv => assocSet m (asciiTitle kv.1) kv.2) md

/-- `StartSpanFromContext`: read (or default) the context metadata, select
the parent options, start the span, inject its context into a fresh carrier
(returning the `Inject` error on failure), fold the injected pairs into the
metadata with Title-cased keys, and return the context extended with the new
span and metadata.  The span-start event is logged in all cases because the
span is started before `Inject` can fail. -/
def StartSpanFromContext (tracer : Tracer) (ctx : Ctx) (name : String)
    (opts : List StartSpanOption) (log : List Ev) :
    List Ev × Except String (Ctx × Span) :=
  let md := ctx.md.getD []
  let opts := parentOpts tracer ctx opts
  let sp : Span := ⟨tracer.newSpanContext name opts⟩
  let log := log ++ [.spanStart sp.sc name]
  match tracer.inject sp.sc with
  | .error e => (log, .error e)
  | .ok nmd => (log, .ok ({ md := some (injectMd md nmd), span := some sp }, sp))

/-- The shared tail of every tracing wrapper around a result `r` of `next`:
when `r`'s error is non-nil, `span.LogFields(log.String("error", err.Error()))`
then `span.SetTag("error", true)`; in both cases the deferred `span.Finish()`
runs last; the error is returned unchanged. -/
def finishSpan (sc : String) (r : List Ev × Option String) :
    List Ev × Option String :=
  match r.2 with
  | some msg =>
      (r.1 ++ [.spanLog sc "error" msg, .spanTag sc "error" "true", .spanFinish sc],
       some msg)
  | none => (r.1 ++ [.spanFinish sc], none)

/-- `finishSpan` for the `Stream` wrapper, whose `next` returns a stream
handle alongside the error; both are returned unchanged. -/
def finishSpanStream (sc : String) (r : List Ev × (Option Nat × Option String)) :
    List Ev × (Option Nat × Option String) :=
  match r.2.2 with
  | some msg =>
      (r.1 ++ [.spanLog sc "error" msg, .spanTag sc "error" "true", .spanFinish sc],
       r.2)
  | none => (r.1 ++ [.spanFinish sc], r.2)

/-- `client.Request` / `server.Request`: service and endpoint names. -/
structure RpcRequest where
  service : String
  endpoint : String
deriving DecidableEq

/-- `client.Message` / `server.Message`: the topic. -/
structure Message where
  topic : String
deriving DecidableEq

/-- `server.HandlerFunc`: context, request and an opaque response object,
threading the event log; returns the error.  `server.HandlerWrapper` wraps
one into another. -/
abbrev HandlerFunc := Ctx → RpcRequest → Nat → List Ev → List Ev × Option String

abbrev HandlerWrapper := HandlerFunc → HandlerFunc

/-- `server.SubscriberFunc` and `server.SubscriberWrapper`. -/
abbrev SubscriberFunc := Ctx → Message → List Ev → List Ev × Option String

abbrev SubscriberWrapper := SubscriberFunc → SubscriberFunc

/-- `client.CallFunc`: context, address, request, opaque response, opaque
`CallOptions` bundle.  `client.CallWrapper` wraps one into another. -/
abbrev CallFunc := Ctx → String → RpcRequest → Nat → Nat → List Ev → List Ev × Option String

abbrev CallWrapper := CallFunc → CallFunc

/-- `client.Client` restricted to the three methods the tracing wrapper
decorates; the opaque `Nat` arguments carry the response object and the
variadic option bundles through unchanged. -/
structure Client where
  call : Ctx → RpcRequest → Nat → Nat → List Ev → List Ev × Option String
  stream : Ctx → RpcRequest → Nat → List Ev → List Ev × (Option Nat × Option String)
  publish : Ctx → Message → Nat → List Ev → List Ev × Option String

/-- `otWrapper`: the tracer plus the embedded next `client.Client`. -/
structure OtWrapper where
  ot : Tracer
  client : Client

/-- `otWrapper.Call`: start a span named `service.endpoint` (returning the
error when that fails), invoke the inner client's `Call` with the extended
context, mark the span failed when it errors (error log field, then error
tag), finish the span (deferred), and return the inner call's error
unchanged. -/
def OtWrapper.Call (o : OtWrapper) (ctx : Ctx) (req : RpcRequest) (rsp copts : Nat)
    (log : List Ev) : List Ev × Option String :=
  let name := req.service ++ "." ++ req.endpoint
  match StartSpanFromContext o.ot ctx name [] log with
  | (log, .error e) => (log, some e)
  | (log, .ok (ctx, span)) => finishSpan span.sc (o.client.call ctx req rsp copts log)

/-- `otWrapper.Stream`: same shape as `Call`, around the inner client's
`Stream`; returns the inner stream handle and error unchanged. -/
def OtWrapper.Stream (o : OtWrapper) (ctx : Ctx) (req : RpcRequest) (copts : Nat)
    (log : List Ev) : List Ev × (Option Nat × Option String) :=
  let name := req.service ++ "." ++ req.endpoint
  match StartSpanFromContext o.ot ctx name [] log with
  | (log, .error e) => (log, (none, some e))
  | (log, .ok (ctx, span)) => finishSpanStream span.sc (o.client.stream ctx req copts log)

/-- `otWrapper.Publish`: span named `"Pub to " ++ topic`, tagged as a
producer span (`ext.SpanKindProducer`), around the inner client's
`Publish`. -/
def OtWrapper.Publish (o : OtWrapper) (ctx : Ctx) (p : Message) (copts : Nat)
    (log : List Ev) : List Ev × Option String :=
  let name := "Pub to " ++ p.topic
  match StartSpanFromContext o.ot ctx name [] log with
  | (log, .error e) => (log, some e)
  | (log, .ok (ctx, span)) =>
    finishSpan span.sc
      (o.client.publish ctx p copts (log ++ [.spanTag span.sc "span.kind" "producer"]))

/-- The `otWrapper` viewed as a `client.Client` (it embeds one and overrides
`Call`, `Stream` and `Publish`). -/
def OtWrapper.toClient (o : OtWrapper) : Client :=
  { call := o.Call, stream := o.Stream, publish := o.Publish }

/-- `NewClientWrapper`: wraps a client in an `otWrapper`, substituting the
ambient global tracer when the supplied tracer is nil. -/
def NewClientWrapper (globalTracer : Tracer) (otArg : Option Tracer) :
    Client → Client :=
  fun c => (OtWrapper.mk (otArg.getD globalTracer) c).toClient

/-- `NewCallWrapper`: the returned `CallFunc` resolves the tracer (global
when nil), starts a span named `service.endpoint` (returning its error on
failure), tags it as an RPC-client span, invokes `cf` with the extended
context, marks the span failed on error, finishes it, and returns `cf`'s
error unchanged. -/
def NewCallWrapper (globalTracer : Tracer) (otArg : Option Tracer) : CallWrapper :=
  fun cf => fun ctx addr req rsp copts log =>
    let ot := otArg.getD globalTracer
    let name := req.service ++ "." ++ req.endpoint
    match StartSpanFromContext ot ctx name [] log with
    | (log, .error e) => (log, some e)
    | (log, .ok (ctx, span)) =>
      finishSpan span.sc
        (cf ctx addr req rsp copts (log ++ [.spanTag span.sc "span.kind" "client"]))

/-- `NewHandlerWrapper`: same shape around a `server.HandlerFunc`, with the
span tagged as an RPC-server span. -/
def NewHandlerWrapper (globalTracer : Tracer) (otArg : Option Tracer) : HandlerWrapper :=
  fun h => fun ctx req rsp log =>
    let ot := otArg.getD globalTracer
    let name := req.service ++ "." ++ req.endpoint
    match StartSpanFromContext ot ctx name [] log with
    | (log, .error e) => (log, some e)
    | (log, .ok (ctx, span)) =>
      finishSpan span.sc
        (h ctx req rsp (log ++ [.spanTag span.sc "span.kind" "server"]))

/-- `NewSubscriberWrapper`: span named `"Sub from " ++ topic`, tagged as a
consumer span, around a `server.SubscriberFunc`. -/
def NewSubscriberWrapper (globalTracer : Tracer) (otArg : Option Tracer) :
    SubscriberWrapper :=
  fun next => fun ctx msg log =>
    let name := "Sub from " ++ msg.topic
    let ot := otArg.getD globalTracer
    match StartSpanFromContext ot ctx name [] log with
    | (log, .error e) => (log, some e)
    | (log, .ok (ctx, span)) =>
      finishSpan span.sc
        (next ctx msg (log ++ [.spanTag span.sc "span.kind" "consumer"]))

/- ### src/unnamed/part_000 — server Options, newOptions, WrapHandler -/

/-- `broker.Broker` values: the memory implementation `mbroker.NewBroker()`
or some other implementation. -/
inductive Broker where
  | memory
  | custom (n : Nat)
deriving DecidableEq

/-- `registry.Registry` values: `memory.NewRegistry()` or another. -/
inductive Registry where
  | memory
  | custom (n : Nat)
deriving DecidableEq

/-- `transport.Transport` values: `tmem.NewTransport()` or another. -/
inductive Transport where
  | memory
  | custom (n : Nat)
deriving DecidableEq

/-- The `RegisterCheck` field's function type (`func(context.Context) error`),
over an opaque context. -/
abbrev RegisterCheckFn := Nat → Option String

/-- `server.Options`: Go nil-able interface and pointer fields become
`Option`, maps become association lists, durations become `Nat`.  Fields the
claims never touch (`Trace`, `Auth`, `Router`, `TLSConfig`, `Context`) are
kept as opaque options. -/
structure ServerOptions where
  codecs : List (String × Nat)
  broker : Option Broker
  registry : Option Registry
  trace : Option Nat
  auth : Option Nat
  transport : Option Transport
  metadata : List (String × String)
  name : String
  address : String
  advertise : String
  id : String
  nspace : String
  version : String
  hdlrWrappers : List HandlerWrapper
  subWrappers : List SubscriberWrapper
  registerCheck : Option RegisterCheckFn
  registerTTL : Nat
  registerInterval : Nat
  router : Option Nat
  tlsConfig : Option Nat
  context : Option Nat

/-- `server.Option` (`func(*Options)`). -/
abbrev ServerOption := ServerOptions → ServerOptions

/-- The package-level defaults consumed by `newOptions`
(`DefaultRegisterInterval`, `DefaultRegisterTTL`, `DefaultAddress`,
`DefaultName`, `DefaultId`, `DefaultVersion`, `DefaultRegisterCheck`): their
defining file is outside the given sources, so they are carried as
parameters. -/
structure ServerDefaults where
  registerInterval : Nat
  registerTTL : Nat
  address : String
  name : String
  id : String
  version : String
  registerCheck : RegisterCheckFn

/-- The struct literal `newOptions` starts from: fresh codec and metadata
maps, the default register interval and TTL, and Go zero values everywhere
else. -/
def initServerOptions (d : ServerDefaults) : ServerOptions :=
  { codecs := []
    broker := none
    registry := none
    trace := none
    auth := none
    transport := none
    metadata := []
    name := ""
    address := ""
    advertise := ""
    id := ""
    nspace := ""
    version := ""
    hdlrWrappers := []
    subWrappers := []
    registerCheck := none
    registerTTL := d.registerTTL
    registerInterval := d.registerInterval
    router := none
    tlsConfig := none
    context := none }

/-- The `for _, o := range opt { o(&opts) }` loop. -/
def applyServerOptions (opt : List ServerOption) (o : ServerOptions) : ServerOptions :=
  opt.foldl (fun o f => f o) o

/-- `if opts.Broker == nil { opts.Broker = mbroker.NewBroker() }`. -/
def defaultBroker (o : ServerOptions) : ServerOptions :=
  if o.broker.isNone then { o with broker := some .memory } else o

/-- `if opts.Registry == nil { opts.Registry = memory.NewRegistry() }`. -/
def defaultRegistry (o : ServerOptions) : ServerOptions :=
  if o.registry.isNone then { o with registry := some .memory } else o

/-- `if opts.Transport == nil { opts.Transport = tmem.NewTransport() }`. -/
def defaultTransport (o : ServerOptions) : ServerOptions :=
  if o.transport.isNone then { o with transport := some .memory } else o

/-- `if opts.RegisterCheck == nil { opts.RegisterCheck = DefaultRegisterCheck }`. -/
def defaultRegisterCheck (d : ServerDefaults) (o : ServerOptions) : ServerOptions :=
  if o.registerCheck.isNone then { o with registerCheck := some d.registerCheck } else o

/-- `if len(opts.Address) == 0 { opts.Address = DefaultAddress }`. -/
def defaultAddress (d : ServerDefaults) (o : ServerOptions) : ServerOptions :=
  if o.address.length = 0 then { o with address := d.address } else o

/-- `if len(opts.Name) == 0 { opts.Name = DefaultName }`. -/
def defaultName (d : ServerDefaults) (o : ServerOptions) : ServerOptions :=
  if o.name.length = 0 then { o with name := d.name } else o

/-- `if len(opts.Id) == 0 { opts.Id = DefaultId }`. -/
def defaultId (d : ServerDefaults) (o : ServerOptions) : ServerOptions :=
  if o.id.length = 0 then { o with id := d.id } else o

/-- `if len(opts.Version) == 0 { opts.Version = DefaultVersion }`. -/
def defaultVersion (d : ServerDefaults) (o : ServerOptions) : ServerOptions :=
  if o.version.length = 0 then { o with version := d.version } else o

/-- `server.newOptions` (identical in the rpc package's `newOptions`): apply
the supplied options to the initial struct, then run the source's defaulting
`if` blocks in source order — memory broker/registry/transport,
`DefaultRegisterCheck`, and the default address/name/id/version for empty
strings (each block is the named step def above). -/
def newOptions (d : ServerDefaults) (opt : List ServerOption) : ServerOptions :=
  defaultVersion d (defaultId d (defaultName d (defaultAddress d
    (defaultRegisterCheck d (defaultTransport (defaultRegistry (defaultBroker
      (applyServerOptions opt (initServerOptions d)))))))))

/-- `server.Name`. -/
def Name (n : String) : ServerOption := fun o => { o with name := n }

/-- `server.Id` (renamed: `Id` is taken in Lean). -/
def IdOpt (i : String) : ServerOption := fun o => { o with id := i }

/-- `server.Version`. -/
def Version (v : String) : ServerOption := fun o => { o with version := v }

/-- `server.Address`. -/
def Address (a : String) : ServerOption := fun o => { o with address := a }

/-- `server.Advertise`. -/
def Advertise (a : String) : ServerOption := fun o => { o with advertise := a }

/-- `server.Broker`. -/
def BrokerOpt (b : Broker) : ServerOption := fun o => { o with broker := some b }

/-- `server.Registry`. -/
def RegistryOpt (r : Registry) : ServerOption := fun o => { o with registry := some r }

/-- `server.Transport`. -/
def TransportOpt (t : Transport) : ServerOption := fun o => { o with transport := some t }

/-- `server.RegisterCheck`. -/
def RegisterCheckOpt (fn : RegisterCheckFn) : ServerOption :=
  fun o => { o with registerCheck := some fn }

/-- `server.RegisterTTL`. -/
def RegisterTTLOpt (t : Nat) : ServerOption := fun o => { o with registerTTL := t }

/-- `server.RegisterInterval`. -/
def RegisterIntervalOpt (t : Nat) : ServerOption :=
  fun o => { o with registerInterval := t }

/-- `server.WrapHandler`: appends the handler wrapper to
`Options.HdlrWrappers`. -/
def WrapHandler (w : HandlerWrapper) : ServerOption :=
  fun o => { o with hdlrWrappers := o.hdlrWrappers ++ [w] }

/-- `server.WrapSubscriber`: appends the subscriber wrapper to
`Options.SubWrappers`. -/
def WrapSubscriber (w : SubscriberWrapper) : ServerOption :=
  fun o => { o with subWrappers := o.subWrappers ++ [w] }

/-- Modelled from the spec: the server's wrapper-composition loop (the rpc
server's dispatch code is not under the given sources).  Wrappers are applied
in registration order such that the first-registered wrapper is the
outermost: it runs first on the way in and last on the way out. -/
def composeHandlerWrappers (ws : List HandlerWrapper) (t : HandlerFunc) : HandlerFunc :=
  ws.foldr (fun w acc => w acc) t

/-- An instrumented handler wrapper emitting a marker before and after
calling `next`, for observing invocation order. -/
def traceHW (pre post : String) : HandlerWrapper :=
  fun next => fun ctx req rsp log =>
    let r := next ctx req rsp (log ++ [.called pre])
    (r.1 ++ [.called post], r.2)

/-- An instrumented terminal handler emitting a marker when it runs. -/
def terminalH (t : String) : HandlerFunc :=
  fun _ _ _ log => (log ++ [.called t], none)

/- ### src/unnamed/part_000 — the jaeger package's init registration -/

/-- Modelled from the spec: the global mutable wrapper registry of the
`component` package (its source is not under the given sources; the spec
describes package-level side-effect registration into a global registry).
Server wrappers and client wrappers are keyed maps; the stored values await
the ambient global tracer, which `opentracing.GlobalTracer()` resolves at
call time. -/
structure ComponentRegistry where
  serverWrappers : List (String × (Tracer → HandlerWrapper))
  clientWrappers : List (String × (Tracer → Client → Client))

/-- The registry before any package init has run. -/
def emptyComponentRegistry : ComponentRegistry :=
  { serverWrappers := [], clientWrappers := [] }

/-- Modelled from the spec: `component.SetServerWrapper` stores a server
wrapper in the global registry under its key. -/
def SetServerWrapper (reg : ComponentRegistry) (k : String)
    (w : Tracer → HandlerWrapper) : ComponentRegistry :=
  { reg with serverWrappers := assocSet reg.serverWrappers k w }

/-- Modelled from the spec: `component.SetClientWrapper` stores a client
wrapper in the global registry under its key. -/
def SetClientWrapper (reg : ComponentRegistry) (k : String)
    (w : Tracer → Client → Client) : ComponentRegistry :=
  { reg with clientWrappers := assocSet reg.clientWrappers k w }

/-- `constant.WrapperTraceKey` (its defining file is outside the given
sources; the concrete string is irrelevant to the claims). -/
def WrapperTraceKey : String := "trace"

/-- The jaeger package's `init`: registers `NewHandlerWrapper(nil)` and
`NewClientWrapper(nil)` in the global component registry under the trace
key — a package-level side effect that runs on import. -/
def jaegerInit (reg : ComponentRegistry) : ComponentRegistry :=
  SetClientWrapper
    (SetServerWrapper reg WrapperTraceKey (fun g => NewHandlerWrapper g none))
    WrapperTraceKey (fun g => NewClientWrapper g none)

/- ### src/config/source/nacos/impl.go — shutdown lifecycle -/

/-- `NacosClient` as visible to `stop`/`Close`: the nil-able sdk client
handle, whether the `exit` channel is closed, how many times it has been
closed (a second `close` of a Go channel would panic; the count observes the
`sync.Once` guard), and whether the `once` has fired. -/
structure NacosClientS where
  client : Option Nat
  exitClosed : Bool
  exitCloseCount : Nat
  onceFired : Bool
deriving DecidableEq

/-- The `onceClose` closure: `close(n.exit)`. -/
def NacosClientS.onceClose (n : NacosClientS) : NacosClientS :=
  { n with exitClosed := true, exitCloseCount := n.exitCloseCount + 1 }

/-- `n.once.Do(n.onceClose)`: runs `onceClose` only the first time. -/
def NacosClientS.onceDo (n : NacosClientS) : NacosClientS :=
  if n.onceFired then n else { n.onceClose with onceFired := true }

/-- `NacosClient.stop`: if `exit` is already closed report true, otherwise
fire the once (closing `exit`) and report false. -/
def NacosClientS.stop (n : NacosClientS) : NacosClientS × Bool :=
  if n.exitClosed then (n, true)
  else (n.onceDo, false)

/-- `NacosClient.Close`: nil receiver is a no-op; otherwise `stop()` then
`SetClient(nil)`. -/
def nacosClientClose (n : Option NacosClientS) : Option NacosClientS :=
  match n with
  | none => none
  | some n => some { n.stop.1 with client := none }

/-- Shutdown events of `nacosDynamicConfiguration.Destroy`, in the order the
code performs them. -/
inductive DestroyEv where
  | closeDone
  | wgWait
  | closeClient
deriving DecidableEq

/-- `nacosDynamicConfiguration` as visible to `Destroy`/`IsAvailable`:
whether the `done` channel is closed, the nil-able `NacosClient`, and whether
the `HandleClientRestart` background task (tracked by the wait group) is
still running. -/
structure NacosDynCfg where
  doneClosed : Bool
  client : Option NacosClientS
  bgRunning : Bool
deriving DecidableEq

/-- `closeConfigs`: under the client lock, take the client, set the field to
nil, and `Close` the old client; returns the new state and the old client's
post-`Close` state. -/
def closeConfigs (c : NacosDynCfg) : NacosDynCfg × Option NacosClientS :=
  let oldClient := c.client
  ({ c with client := none }, nacosClientClose oldClient)

/-- `Destroy`: `close(n.done)`, then `n.wg.Wait()` (joining the background
client-restart task, which exits when `done` closes), then `closeConfigs`.
Returns the final state, the old client's post-`Close` state, and the event
trace in execution order. -/
def Destroy (c : NacosDynCfg) : NacosDynCfg × Option NacosClientS × List DestroyEv :=
  let c1 := { c with doneClosed := true }
  let c2 := { c1 with bgRunning := false }
  let p := closeConfigs c2
  (p.1, p.2, [.closeDone, .wgWait, .closeClient])

/-- `IsAvailable`: the `select` on `done` — false once `done` is closed,
true otherwise. -/
def IsAvailable (c : NacosDynCfg) : Bool := !c.doneClosed

/- ### Concrete sample values used by the witnesses -/

/-- Sample server defaults with non-empty strings. -/
def dflt0 : ServerDefaults :=
  { registerInterval := 30
    registerTTL := 90
    address := ":0"
    name := "go.micro.server"
    id := "id-1"
    version := "latest"
    registerCheck := fun _ => none }

/-- A sample tracer whose extract and inject both succeed. -/
def tr0 : Tracer :=
  { extract := fun _ => .ok "wire-parent"
    newSpanContext := fun n _ => n
    inject := fun sc => .ok [("uber-trace-id", sc)] }

/-- A sample tracer whose inject fails. -/
def trFail : Tracer :=
  { extract := fun _ => .error "no span data"
    newSpanContext := fun n _ => n
    inject := fun _ => .error "inject failed" }

/-- A sample context with neither metadata nor an in-process span. -/
def ctx0 : Ctx := { md := none, span := none }

/-- A sample request. -/
def req0 : RpcRequest := { service := "svc", endpoint := "ep" }

/-- A sample message. -/
def msg0 : Message := { topic := "top" }

/-- A sample client whose call fails, for exercising the error path. -/
def client0 : Client :=
  { call := fun _ _ _ _ log => (log ++ [.called "call"], some "boom")
    stream := fun _ _ _ log => (log ++ [.called "stream"], (some 7, none))
    publish := fun _ _ _ log => (log ++ [.called "publish"], none) }

/-- A sample live nacos client. -/
def ncs0 : NacosClientS :=
  { client := some 3, exitClosed := false, exitCloseCount := 0, onceFired := false }

/-- A sample live dynamic configuration. -/
def cfg0 : NacosDynCfg :=
  { doneClosed := false, client := some ncs0, bgRunning := true }

/-- A sample option list setting an address and a custom broker. -/
def opts0 : List ServerOption := [Address ":8080", BrokerOpt (Broker.custom 5)]

/- ### C1 — panic containment in microTransport.Stream -/

/-- C1: if the socket-serving function panics on the socket `Stream` built,
the panic is recovered at the serving boundary: `Stream` still returns (it is
a total function), the socket is closed, and the returned error is the
`InternalServerError` carrying the recovered value. -/
theorem C1_stream_panic_recovered (m : MicroTransport) (remote r : String)
    (h : m.fn { localAddr := m.addr, remote := remote, closed := false } = .panicked r) :
    (m.Stream remote).sock.closed = true ∧
    (m.Stream remote).err =
      some (InternalServerError "go.micro.transport" ("panic recovered: " ++ r)) := by
  simp [MicroTransport.Stream, GrpcSocket.close, h]

/-- Witness for C1 at a concrete transport whose handler always panics with
`"boom"`. -/
theorem C1_stream_panic_recovered_witness :
    (MicroTransport.mk "127.0.0.1:0" (fun _ => .panicked "boom")).fn
        { localAddr := "127.0.0.1:0", remote := "10.0.0.7:4", closed := false } =
      .panicked "boom" ∧
    ((MicroTransport.mk "127.0.0.1:0" (fun _ => .panicked "boom")).Stream
        "10.0.0.7:4").sock.closed = true ∧
    ((MicroTransport.mk "127.0.0.1:0" (fun _ => .panicked "boom")).Stream
        "10.0.0.7:4").err =
      some (InternalServerError "go.micro.transport" ("panic recovered: " ++ "boom")) :=
  ⟨rfl, C1_stream_panic_recovered _ "10.0.0.7:4" "boom" rfl⟩

/- ### C9 — resolvedGroup is idempotent and slash-free -/

theorem slashToDash_ne_slash (c : Char) : slashToDash c ≠ '/' := by
  unfold slashToDash
  by_cases h : c = '/' <;> simp [h]

theorem slashToDash_idem (c : Char) : slashToDash (slashToDash c) = slashToDash c := by
  unfold slashToDash
  by_cases h : c = '/' <;> simp [h]

theorem resolvedGroup_eq (g : String) : resolvedGroup g = ⟨g.data.map slashToDash⟩ := by
  cases g with
  | mk data =>
    unfold resolvedGroup
    by_cases h : (String.mk data).length ≤ 0
    · rw [if_pos h]
      have hz : data = [] := List.eq_nil_of_length_eq_zero (Nat.le_zero.mp h)
      subst hz
      rfl
    · rw [if_neg h]

theorem resolvedGroup_no_slash (g : String) : '/' ∉ (resolvedGroup g).data := by
  rw [resolvedGroup_eq]
  intro hmem
  rcases List.mem_map.mp hmem with ⟨c, _, hc⟩
  exact slashToDash_ne_slash c hc

theorem resolvedGroup_idem (g : String) :
    resolvedGroup (resolvedGroup g) = resolvedGroup g := by
  rw [resolvedGroup_eq g, resolvedGroup_eq ⟨g.data.map slashToDash⟩]
  apply congrArg String.mk
  show (g.data.map slashToDash).map slashToDash = g.data.map slashToDash
  rw [List.map_map]
  have hf : slashToDash ∘ slashToDash = slashToDash := funext slashToDash_idem
  rw [hf]

/-- C9: `resolvedGroup` is idempotent, maps the empty string to itself, and
its result never contains `'/'`; consequently the group field of the
`ConfigParam` that `PublishConfig` and `GetRule` pass to the underlying nacos
client never contains `'/'`. -/
theorem C9_resolvedGroup (g key value : String)
    (opts : List (CfgOptions → CfgOptions)) :
    resolvedGroup (resolvedGroup g) = resolvedGroup g ∧
    resolvedGroup "" = "" ∧
    '/' ∉ (resolvedGroup g).data ∧
    '/' ∉ (publishConfigParam key g value).group.data ∧
    '/' ∉ (getRuleParam key opts).group.data := by
  refine ⟨resolvedGroup_idem g, rfl, resolvedGroup_no_slash g, ?_, ?_⟩
  · exact resolvedGroup_no_slash g
  · exact resolvedGroup_no_slash _

/-- Witness for C9 at a concrete group containing slashes. -/
theorem C9_resolvedGroup_witness :
    resolvedGroup (resolvedGroup "a/b/c") = resolvedGroup "a/b/c" ∧
    resolvedGroup "" = "" ∧
    '/' ∉ (resolvedGroup "a/b/c").data ∧
    '/' ∉ (publishConfigParam "k" "a/b/c" "v").group.data ∧
    '/' ∉ (getRuleParam "k" [fun o => { o with group := "x/y" }]).group.data :=
  C9_resolvedGroup "a/b/c" "k" "v" [fun o => { o with group := "x/y" }]

/- ### C2 — wrapper ordering -/

/-- C2: registering wrappers `W1` then `W2` through `WrapHandler` (which
appends to `Options.HdlrWrappers`) and composing them around a terminal
handler `T` yields the invocation order `W1-pre, W2-pre, T, W2-post,
W1-post`: the first-registered wrapper is the outermost. -/
theorem C2_wrapper_order (d : ServerDefaults) (p1 q1 p2 q2 t : String)
    (ctx : Ctx) (req : RpcRequest) (rsp : Nat) :
    (composeHandlerWrappers
        (applyServerOptions
          [WrapHandler (traceHW p1 q1), WrapHandler (traceHW p2 q2)]
          (initServerOptions d)).hdlrWrappers
        (terminalH t)) ctx req rsp []
      = ([.called p1, .called p2, .called t, .called q2, .called q1], none) := by
  rfl

/-- Witness for C2 with the spec's labels. -/
theorem C2_wrapper_order_witness :
    (composeHandlerWrappers
        (applyServerOptions
          [WrapHandler (traceHW "W1-pre" "W1-post"),
           WrapHandler (traceHW "W2-pre" "W2-post")]
          (initServerOptions dflt0)).hdlrWrappers
        (terminalH "T")) ctx0 req0 0 []
      = ([.called "W1-pre", .called "W2-pre", .called "T",
          .called "W2-post", .called "W1-post"], none) :=
  C2_wrapper_order dflt0 "W1-pre" "W1-post" "W2-pre" "W2-post" "T" ctx0 req0 0

/- ### C3 — global wrapper registry mutated by package init -/

theorem find_map_set {α : Type} (k : String) (v : α) :
    ∀ l : List (String × α), l.any (fun p => p.1 = k) = true →
      (l.map (fun p => if p.1 = k then (k, v) else p)).find? (fun p => p.1 = k)
        = some (k, v) := by
  intro l
  induction l with
  | nil => intro h; simp at h
  | cons hd tl ih =>
    intro h
    by_cases hk : hd.1 = k
    · simp [hk]
    · have htl : tl.any (fun p => p.1 = k) = true := by
        simp only [List.any_cons, hk, decide_False, Bool.false_or] at h
        exact h
      simp [hk, ih htl]

theorem find_append_hit {α : Type} (k : String) (v : α) :
    ∀ l : List (String × α), l.any (fun p => p.1 = k) = false →
      (l ++ [(k, v)]).find? (fun p => p.1 = k) = some (k, v) := by
  intro l
  induction l with
  | nil => simp
  | cons hd tl ih =>
    intro h
    rw [List.any_cons, Bool.or_eq_false_iff] at h
    rw [List.cons_append, List.find?_cons_of_neg _ (by simpa using h.1)]
    exact ih h.2

theorem assocLookup_assocSet {α : Type} (l : List (String × α)) (k : String) (v : α) :
    assocLookup (assocSet l k v) k = some v := by
  unfold assocSet assocLookup
  by_cases h : l.any (fun p => p.1 = k)
  · rw [if_pos h, find_map_set k v l h]
    rfl
  · rw [if_neg h, find_append_hit k v l (Bool.eq_false_iff.mpr h)]
    rfl

/-- C3 counterexample: the claim that importing a wrapper package leaves
every global registry unchanged is false — running the jaeger package's
`init` on the empty component registry changes it. -/
theorem C3_no_global_registration_counterexample :
    jaegerInit emptyComponentRegistry ≠ emptyComponentRegistry := by
  intro h
  have h2 := congrArg (fun r => r.serverWrappers.length) h
  simp [jaegerInit, SetServerWrapper, SetClientWrapper, emptyComponentRegistry,
    assocSet] at h2

/-- C3 amended: explicit wrapper assembly holds — `WrapHandler` and
`WrapSubscriber` only append to the `Options` value they are applied to —
but the jaeger package does register wrappers through a package-level side
effect: its `init` installs the trace handler wrapper and trace client
wrapper in the global component registry, so importing it mutates the global
registry. -/
theorem C3_no_global_registration_amended (reg : ComponentRegistry)
    (o : ServerOptions) (w : HandlerWrapper) (ws : SubscriberWrapper) :
    (WrapHandler w o).hdlrWrappers = o.hdlrWrappers ++ [w] ∧
    (WrapSubscriber ws o).subWrappers = o.subWrappers ++ [ws] ∧
    (assocLookup (jaegerInit reg).serverWrappers WrapperTraceKey).isSome = true ∧
    (assocLookup (jaegerInit reg).clientWrappers WrapperTraceKey).isSome = true := by
  refine ⟨rfl, rfl, ?_, ?_⟩
  · show (assocLookup (assocSet reg.serverWrappers WrapperTraceKey
      (fun g => NewHandlerWrapper g none)) WrapperTraceKey).isSome = true
    rw [assocLookup_assocSet]
    rfl
  · show (assocLookup (assocSet reg.clientWrappers WrapperTraceKey
      (fun g => NewClientWrapper g none)) WrapperTraceKey).isSome = true
    rw [assocLookup_assocSet]
    rfl

/-- Witness for the amended C3 at the empty registry and a sample options
value. -/
theorem C3_no_global_registration_amended_witness :
    (WrapHandler (traceHW "a" "b") (initServerOptions dflt0)).hdlrWrappers
      = (initServerOptions dflt0).hdlrWrappers ++ [traceHW "a" "b"] ∧
    (WrapSubscriber (fun next => next) (initServerOptions dflt0)).subWrappers
      = (initServerOptions dflt0).subWrappers ++ [fun next => next] ∧
    (assocLookup (jaegerInit emptyComponentRegistry).serverWrappers
      WrapperTraceKey).isSome = true ∧
    (assocLookup (jaegerInit emptyComponentRegistry).clientWrappers
      WrapperTraceKey).isSome = true :=
  C3_no_global_registration_amended emptyComponentRegistry
    (initServerOptions dflt0) (traceHW "a" "b") (fun next => next)

/- ### Shared facts about StartSpanFromContext and the event log -/

theorem startSpan_ok_elim (tracer : Tracer) (ctx : Ctx) (name : String)
    (opts : List StartSpanOption) (log log' : List Ev) (ctx' : Ctx) (sp : Span)
    (h : StartSpanFromContext tracer ctx name opts log = (log', .ok (ctx', sp))) :
    sp = ⟨tracer.newSpanContext name (parentOpts tracer ctx opts)⟩ ∧
    log' = log ++ [.spanStart sp.sc name] ∧
    ∃ nmd, tracer.inject sp.sc = .ok nmd ∧
      ctx' = { md := some (injectMd (ctx.md.getD []) nmd), span := some sp } := by
  simp only [StartSpanFromContext] at h
  cases hinj : tracer.inject (tracer.newSpanContext name (parentOpts tracer ctx opts)) with
  | error e2 => rw [hinj] at h; simp at h
  | ok nmd =>
    rw [hinj] at h
    simp only [Prod.mk.injEq, Except.ok.injEq] at h
    obtain ⟨h1, h2, h3⟩ := h
    rw [h3] at h2
    refine ⟨h3.symm, ?_, nmd, ?_, h2.symm⟩
    · rw [← h3]; exact h1.symm
    · rw [← h3]; exact hinj

theorem startSpan_error_elim (tracer : Tracer) (ctx : Ctx) (name : String)
    (opts : List StartSpanOption) (log log' : List Ev) (e : String)
    (h : StartSpanFromContext tracer ctx name opts log = (log', .error e)) :
    log' = log ++
      [.spanStart (tracer.newSpanContext name (parentOpts tracer ctx opts)) name] ∧
    tracer.inject (tracer.newSpanContext name (parentOpts tracer ctx opts))
      = .error e := by
  simp only [StartSpanFromContext] at h
  cases hinj : tracer.inject (tracer.newSpanContext name (parentOpts tracer ctx opts)) with
  | error e2 =>
    rw [hinj] at h
    simp only [Prod.mk.injEq, Except.error.injEq] at h
    obtain ⟨h1, h2⟩ := h
    subst h2
    exact ⟨h1.symm, rfl⟩
  | ok nmd => rw [hinj] at h; simp at h

theorem countCalled_append (l1 l2 : List Ev) :
    countCalled (l1 ++ l2) = countCalled l1 + countCalled l2 := by
  simp [countCalled, List.countP_append]

theorem finishSpan_err (sc : String) (r : List Ev × Option String) :
    (finishSpan sc r).2 = r.2 := by
  rcases r with ⟨l, e⟩
  cases e <;> rfl

theorem finishSpan_marks (sc msg : String) (r : List Ev × Option String)
    (h : r.2 = some msg) :
    Ev.spanTag sc "error" "true" ∈ (finishSpan sc r).1 ∧
    Ev.spanLog sc "error" msg ∈ (finishSpan sc r).1 := by
  rcases r with ⟨l, e⟩
  cases e with
  | none => simp at h
  | some m =>
    simp only [Option.some.injEq] at h
    subst h
    constructor
    · show Ev.spanTag sc "error" "true" ∈
        l ++ [Ev.spanLog sc "error" m, Ev.spanTag sc "error" "true", Ev.spanFinish sc]
      simp
    · show Ev.spanLog sc "error" m ∈
        l ++ [Ev.spanLog sc "error" m, Ev.spanTag sc "error" "true", Ev.spanFinish sc]
      simp

theorem countCalled_spanMarks (sc msg : String) :
    countCalled [Ev.spanLog sc "error" msg, Ev.spanTag sc "error" "true",
      Ev.spanFinish sc] = 0 := rfl

theorem countCalled_finishEv (sc : String) :
    countCalled [Ev.spanFinish sc] = 0 := rfl

theorem countCalled_startEv (sc name : String) :
    countCalled [Ev.spanStart sc name] = 0 := rfl

theorem countCalled_kindEv (sc v : String) :
    countCalled [Ev.spanTag sc "span.kind" v] = 0 := rfl

theorem countCalled_calledEv (tag : String) :
    countCalled [Ev.called tag] = 1 := rfl

theorem finishSpan_count (sc : String) (r : List Ev × Option String) :
    countCalled (finishSpan sc r).1 = countCalled r.1 := by
  rcases r with ⟨l, e⟩
  cases e with
  | none =>
    show countCalled (l ++ [Ev.spanFinish sc]) = countCalled l
    rw [countCalled_append, countCalled_finishEv]
    exact Nat.add_zero _
  | some m =>
    show countCalled
        (l ++ [Ev.spanLog sc "error" m, Ev.spanTag sc "error" "true",
          Ev.spanFinish sc]) = countCalled l
    rw [countCalled_append, countCalled_spanMarks]
    exact Nat.add_zero _

theorem finishSpanStream_res (sc : String) (r : List Ev × (Option Nat × Option String)) :
    (finishSpanStream sc r).2 = r.2 := by
  rcases r with ⟨l, st, e⟩
  cases e <;> rfl

theorem finishSpanStream_count (sc : String) (r : List Ev × (Option Nat × Option String)) :
    countCalled (finishSpanStream sc r).1 = countCalled r.1 := by
  rcases r with ⟨l, st, e⟩
  cases e with
  | none =>
    show countCalled (l ++ [Ev.spanFinish sc]) = countCalled l
    rw [countCalled_append, countCalled_finishEv]
    exact Nat.add_zero _
  | some m =>
    show countCalled
        (l ++ [Ev.spanLog sc "error" m, Ev.spanTag sc "error" "true",
          Ev.spanFinish sc]) = countCalled l
    rw [countCalled_append, countCalled_spanMarks]
    exact Nat.add_zero _

/- ### C4 — wrapper error transparency and span failure marking -/

/-- C4: when span creation succeeds, `otWrapper.Call` and the handler
wrapper return exactly the error of `next` (nil iff `next` returned nil),
and when that error is non-nil the span is marked failed: the error tag is
set to true and the error string logged on the span. -/
theorem C4_error_transparency (o : OtWrapper) (g tr : Tracer) (hf : HandlerFunc)
    (ctx ctx' : Ctx) (req : RpcRequest) (rsp copts : Nat)
    (log log' : List Ev) (sp : Span) :
    (StartSpanFromContext o.ot ctx (req.service ++ "." ++ req.endpoint) [] log
        = (log', .ok (ctx', sp)) →
      (o.Call ctx req rsp copts log).2 = (o.client.call ctx' req rsp copts log').2 ∧
      (∀ msg, (o.client.call ctx' req rsp copts log').2 = some msg →
        Ev.spanTag sp.sc "error" "true" ∈ (o.Call ctx req rsp copts log).1 ∧
        Ev.spanLog sp.sc "error" msg ∈ (o.Call ctx req rsp copts log).1)) ∧
    (StartSpanFromContext tr ctx (req.service ++ "." ++ req.endpoint) [] log
        = (log', .ok (ctx', sp)) →
      (NewHandlerWrapper g (some tr) hf ctx req rsp log).2
          = (hf ctx' req rsp (log' ++ [.spanTag sp.sc "span.kind" "server"])).2 ∧
      (∀ msg,
        (hf ctx' req rsp (log' ++ [.spanTag sp.sc "span.kind" "server"])).2 = some msg →
        Ev.spanTag sp.sc "error" "true"
            ∈ (NewHandlerWrapper g (some tr) hf ctx req rsp log).1 ∧
        Ev.spanLog sp.sc "error" msg
            ∈ (NewHandlerWrapper g (some tr) hf ctx req rsp log).1)) := by
  constructor
  · intro h
    simp only [OtWrapper.Call, h]
    exact ⟨finishSpan_err _ _, fun msg hmsg => finishSpan_marks _ msg _ hmsg⟩
  · intro h
    simp only [NewHandlerWrapper, Option.getD_some, h]
    exact ⟨finishSpan_err _ _, fun msg hmsg => finishSpan_marks _ msg _ hmsg⟩

/-- Witness for C4: a concrete tracer whose inject succeeds and a client
whose call fails with `"boom"`; the wrapper returns `"boom"` and the span
carries the failure tag and log. -/
theorem C4_error_transparency_witness :
    StartSpanFromContext tr0 ctx0 ("svc" ++ "." ++ "ep") [] []
        = ([.spanStart "svc.ep" "svc.ep"],
           .ok ({ md := some [("Uber-Trace-Id", "svc.ep")], span := some ⟨"svc.ep"⟩ },
                ⟨"svc.ep"⟩)) ∧
    ((OtWrapper.mk tr0 client0).Call ctx0 req0 0 0 []).2
        = (client0.call { md := some [("Uber-Trace-Id", "svc.ep")],
                          span := some ⟨"svc.ep"⟩ } req0 0 0
            [.spanStart "svc.ep" "svc.ep"]).2 ∧
    Ev.spanTag "svc.ep" "error" "true" ∈ ((OtWrapper.mk tr0 client0).Call ctx0 req0 0 0 []).1 ∧
    Ev.spanLog "svc.ep" "error" "boom" ∈ ((OtWrapper.mk tr0 client0).Call ctx0 req0 0 0 []).1 := by
  have hs : StartSpanFromContext tr0 ctx0 ("svc" ++ "." ++ "ep") [] []
      = ([.spanStart "svc.ep" "svc.ep"],
         .ok ({ md := some [("Uber-Trace-Id", "svc.ep")], span := some ⟨"svc.ep"⟩ },
              ⟨"svc.ep"⟩)) := by rfl
  have hmain := (C4_error_transparency (OtWrapper.mk tr0 client0) tr0 tr0
    (fun _ _ _ l => (l, none)) ctx0
    { md := some [("Uber-Trace-Id", "svc.ep")], span := some ⟨"svc.ep"⟩ }
    req0 0 0 [] [.spanStart "svc.ep" "svc.ep"] ⟨"svc.ep"⟩).1 hs
  refine ⟨hs, hmain.1, ?_, ?_⟩
  · exact (hmain.2 "boom" (by rfl)).1
  · exact (hmain.2 "boom" (by rfl)).2

/- ### C5 — parent selection precedence and metadata injection -/

/-- C5: `StartSpanFromContext` selects the parent with the precedence
in-process span first (wire metadata not consulted), then successfully
extracted wire span context, else no parent; and on success the injected
propagation pairs are folded into the returned context's metadata under
Title-cased keys, the new span is installed in the returned context, and the
handler wrapper invokes `next` with exactly that returned context. -/
theorem C5_parent_precedence_and_injection
    (tracer g : Tracer) (ctx ctx' : Ctx) (name : String)
    (opts : List StartSpanOption) (ps : Span) (sc e : String)
    (log log' : List Ev) (sp : Span) (req : RpcRequest) (rsp : Nat) :
    (ctx.span = some ps → parentOpts tracer ctx opts = opts ++ [.childOf ps.sc]) ∧
    (ctx.span = none → tracer.extract (ctx.md.getD []) = .ok sc →
      parentOpts tracer ctx opts = opts ++ [.childOf sc]) ∧
    (ctx.span = none → tracer.extract (ctx.md.getD []) = .error e →
      parentOpts tracer ctx opts = opts) ∧
    (StartSpanFromContext tracer ctx name opts log = (log', .ok (ctx', sp)) →
      sp.sc = tracer.newSpanContext name (parentOpts tracer ctx opts) ∧
      ∃ nmd, tracer.inject sp.sc = .ok nmd ∧
        ctx' = { md := some (injectMd (ctx.md.getD []) nmd), span := some sp }) ∧
    (StartSpanFromContext tracer ctx (req.service ++ "." ++ req.endpoint) [] log
        = (log', .ok (ctx', sp)) →
      (NewHandlerWrapper g (some tracer)
          (fun c _ _ l => (l, if c = ctx' then none else some "ctx-mismatch"))
        ctx req rsp log).2 = none) := by
  refine ⟨?_, ?_, ?_, ?_, ?_⟩
  · intro h
    simp [parentOpts, h]
  · intro h1 h2
    simp [parentOpts, h1, h2]
  · intro h1 h2
    simp [parentOpts, h1, h2]
  · intro h
    obtain ⟨hsp, _, nmd, hinj, hctx⟩ := startSpan_ok_elim tracer ctx name opts log log' ctx' sp h
    exact ⟨by rw [hsp], nmd, hinj, hctx⟩
  · intro h
    simp only [NewHandlerWrapper, Option.getD_some, h]
    simp [finishSpan]

/-- Witness for C5 at concrete tracers and contexts: an in-process parent
wins over wire extraction, wire extraction is used when no in-process span
exists, and the injected pair lands under its Title-cased key. -/
theorem C5_parent_precedence_and_injection_witness :
    ({ md := none, span := some ⟨"p0"⟩ } : Ctx).span = some ⟨"p0"⟩ ∧
    parentOpts tr0 { md := none, span := some ⟨"p0"⟩ } []
      = [StartSpanOption.childOf "p0"] ∧
    ctx0.span = none ∧
    tr0.extract (ctx0.md.getD []) = .ok "wire-parent" ∧
    parentOpts tr0 ctx0 [] = [StartSpanOption.childOf "wire-parent"] ∧
    StartSpanFromContext tr0 ctx0 "op" [] []
      = ([.spanStart "op" "op"],
         .ok ({ md := some [("Uber-Trace-Id", "op")], span := some ⟨"op"⟩ }, ⟨"op"⟩)) ∧
    (⟨"op"⟩ : Span).sc = tr0.newSpanContext "op" (parentOpts tr0 ctx0 []) ∧
    ∃ nmd, tr0.inject "op" = .ok nmd ∧
      ({ md := some [("Uber-Trace-Id", "op")], span := some ⟨"op"⟩ } : Ctx)
        = { md := some (injectMd (ctx0.md.getD []) nmd), span := some ⟨"op"⟩ } := by
  have h1 := (C5_parent_precedence_and_injection tr0 tr0
    { md := none, span := some ⟨"p0"⟩ } ctx0 "op" [] ⟨"p0"⟩ "wire-parent" "e"
    [] [] ⟨"op"⟩ req0 0).1 rfl
  have h2 := (C5_parent_precedence_and_injection tr0 tr0 ctx0 ctx0 "op" []
    ⟨"p0"⟩ "wire-parent" "e" [] [] ⟨"op"⟩ req0 0).2.1 rfl rfl
  have hs : StartSpanFromContext tr0 ctx0 "op" [] []
      = ([.spanStart "op" "op"],
         .ok ({ md := some [("Uber-Trace-Id", "op")], span := some ⟨"op"⟩ }, ⟨"op"⟩)) := by
    rfl
  have h4 := (C5_parent_precedence_and_injection tr0 tr0 ctx0
    { md := some [("Uber-Trace-Id", "op")], span := some ⟨"op"⟩ } "op" []
    ⟨"p0"⟩ "wire-parent" "e" [] [.spanStart "op" "op"] ⟨"op"⟩ req0 0).2.2.2.1 hs
  exact ⟨rfl, h1, rfl, rfl, h2, hs, h4.1, h4.2⟩

/- ### C6 — next is called at most once -/

/-- C6: each tracing wrapper (`otWrapper.Call`, the `CallWrapper`, the
handler wrapper, the subscriber wrapper) calls its `next` exactly once when
span creation succeeds — an instrumented `next` adds exactly one call marker
to the log — and zero times when span creation fails: the wrapper's result is
then the span-start log plus the error, for every `next`, with no call
marker added. -/
theorem C6_next_called_once (tr g : Tracer) (cl : Client)
    (ctx ctx' : Ctx) (req : RpcRequest) (msg : Message) (rsp copts : Nat)
    (addr : String) (log log' : List Ev) (sp : Span) (e : String)
    (fc : Ctx → RpcRequest → Nat → Nat → Option String)
    (fcf : Ctx → String → RpcRequest → Nat → Nat → Option String)
    (fh : Ctx → RpcRequest → Nat → Option String)
    (fs : Ctx → Message → Option String) :
    (StartSpanFromContext tr ctx (req.service ++ "." ++ req.endpoint) [] log
        = (log', .ok (ctx', sp)) →
      countCalled ((OtWrapper.mk tr
          { cl with call := fun c r x y l => (l ++ [.called "next"], fc c r x y) }).Call
            ctx req rsp copts log).1 = countCalled log + 1) ∧
    (StartSpanFromContext tr ctx (req.service ++ "." ++ req.endpoint) [] log
        = (log', .error e) →
      (OtWrapper.mk tr cl).Call ctx req rsp copts log = (log', some e) ∧
      countCalled log' = countCalled log) ∧
    (StartSpanFromContext tr ctx (req.service ++ "." ++ req.endpoint) [] log
        = (log', .ok (ctx', sp)) →
      countCalled ((NewCallWrapper g (some tr)
          (fun c a r x y l => (l ++ [.called "next"], fcf c a r x y)))
            ctx addr req rsp copts log).1 = countCalled log + 1) ∧
    (StartSpanFromContext tr ctx (req.service ++ "." ++ req.endpoint) [] log
        = (log', .error e) →
      ∀ cf : CallFunc,
        NewCallWrapper g (some tr) cf ctx addr req rsp copts log = (log', some e)) ∧
    (StartSpanFromContext tr ctx (req.service ++ "." ++ req.endpoint) [] log
        = (log', .ok (ctx', sp)) →
      countCalled ((NewHandlerWrapper g (some tr)
          (fun c r x l => (l ++ [.called "next"], fh c r x))) ctx req rsp log).1
        = countCalled log + 1) ∧
    (StartSpanFromContext tr ctx (req.service ++ "." ++ req.endpoint) [] log
        = (log', .error e) →
      ∀ hf : HandlerFunc,
        NewHandlerWrapper g (some tr) hf ctx req rsp log = (log', some e)) ∧
    (StartSpanFromContext tr ctx ("Sub from " ++ msg.topic) [] log
        = (log', .ok (ctx', sp)) →
      countCalled ((NewSubscriberWrapper g (some tr)
          (fun c m l => (l ++ [.called "next"], fs c m))) ctx msg log).1
        = countCalled log + 1) ∧
    (StartSpanFromContext tr ctx ("Sub from " ++ msg.topic) [] log
        = (log', .error e) →
      ∀ sf : SubscriberFunc,
        NewSubscriberWrapper g (some tr) sf ctx msg log = (log', some e)) := by
  refine ⟨?_, ?_, ?_, ?_, ?_, ?_, ?_, ?_⟩
  · intro h
    obtain ⟨_, hlog, _⟩ := startSpan_ok_elim tr ctx _ [] log log' ctx' sp h
    simp only [OtWrapper.Call, h]
    rw [finishSpan_count]
    show countCalled (log' ++ [Ev.called "next"]) = countCalled log + 1
    subst hlog
    simp [countCalled_append, countCalled_startEv, countCalled_calledEv]
    rfl
  · intro h
    obtain ⟨hlog, _⟩ := startSpan_error_elim tr ctx _ [] log log' e h
    constructor
    · simp [OtWrapper.Call, h]
    · subst hlog
      rw [countCalled_append, countCalled_startEv]
      exact Nat.add_zero _
  · intro h
    obtain ⟨_, hlog, _⟩ := startSpan_ok_elim tr ctx _ [] log log' ctx' sp h
    simp only [NewCallWrapper, Option.getD_some, h]
    rw [finishSpan_count]
    show countCalled ((log' ++ [Ev.spanTag sp.sc "span.kind" "client"])
        ++ [Ev.called "next"]) = countCalled log + 1
    subst hlog
    simp [countCalled_append, countCalled_startEv, countCalled_kindEv,
      countCalled_calledEv]
    rfl
  · intro h cf
    simp [NewCallWrapper, Option.getD_some, h]
  · intro h
    obtain ⟨_, hlog, _⟩ := startSpan_ok_elim tr ctx _ [] log log' ctx' sp h
    simp only [NewHandlerWrapper, Option.getD_some, h]
    rw [finishSpan_count]
    show countCalled ((log' ++ [Ev.spanTag sp.sc "span.kind" "server"])
        ++ [Ev.called "next"]) = countCalled log + 1
    subst hlog
    simp [countCalled_append, countCalled_startEv, countCalled_kindEv,
      countCalled_calledEv]
    rfl
  · intro h hf
    simp [NewHandlerWrapper, Option.getD_some, h]
  · intro h
    obtain ⟨_, hlog, _⟩ := startSpan_ok_elim tr ctx _ [] log log' ctx' sp h
    simp only [NewSubscriberWrapper, Option.getD_some, h]
    rw [finishSpan_count]
    show countCalled ((log' ++ [Ev.spanTag sp.sc "span.kind" "consumer"])
        ++ [Ev.called "next"]) = countCalled log + 1
    subst hlog
    simp [countCalled_append, countCalled_startEv, countCalled_kindEv,
      countCalled_calledEv]
    rfl
  · intro h sf
    simp [NewSubscriberWrapper, Option.getD_some, h]

/-- Witness for C6: with a succeeding tracer the instrumented client is
called exactly once; with a failing tracer the wrapper short-circuits with
the inject error and an unchanged call count. -/
theorem C6_next_called_once_witness :
    StartSpanFromContext tr0 ctx0 ("svc" ++ "." ++ "ep") [] []
      = ([.spanStart "svc.ep" "svc.ep"],
         .ok ({ md := some [("Uber-Trace-Id", "svc.ep")], span := some ⟨"svc.ep"⟩ },
              ⟨"svc.ep"⟩)) ∧
    countCalled ((OtWrapper.mk tr0
        { client0 with call := fun c r x y l =>
            (l ++ [.called "next"],
             (fun _ _ _ _ => some "boom") c r x y) }).Call ctx0 req0 0 0 []).1
      = countCalled [] + 1 ∧
    StartSpanFromContext trFail ctx0 ("svc" ++ "." ++ "ep") [] []
      = ([.spanStart "svc.ep" "svc.ep"], .error "inject failed") ∧
    (OtWrapper.mk trFail client0).Call ctx0 req0 0 0 []
      = ([.spanStart "svc.ep" "svc.ep"], some "inject failed") := by
  have hok : StartSpanFromContext tr0 ctx0 ("svc" ++ "." ++ "ep") [] []
      = ([.spanStart "svc.ep" "svc.ep"],
         .ok ({ md := some [("Uber-Trace-Id", "svc.ep")], span := some ⟨"svc.ep"⟩ },
              ⟨"svc.ep"⟩)) := by rfl
  have herr : StartSpanFromContext trFail ctx0 ("svc" ++ "." ++ "ep") [] []
      = ([.spanStart "svc.ep" "svc.ep"], .error "inject failed") := by rfl
  refine ⟨hok, ?_, herr, ?_⟩
  · exact (C6_next_called_once tr0 tr0 client0 ctx0
      { md := some [("Uber-Trace-Id", "svc.ep")], span := some ⟨"svc.ep"⟩ }
      req0 msg0 0 0 "addr" [] [.spanStart "svc.ep" "svc.ep"] ⟨"svc.ep"⟩
      "inject failed" (fun _ _ _ _ => some "boom") (fun _ _ _ _ _ => none)
      (fun _ _ _ => none) (fun _ _ => none)).1 hok
  · exact ((C6_next_called_once trFail tr0 client0 ctx0
      { md := some [("Uber-Trace-Id", "svc.ep")], span := some ⟨"svc.ep"⟩ }
      req0 msg0 0 0 "addr" [] [.spanStart "svc.ep" "svc.ep"] ⟨"svc.ep"⟩
      "inject failed" (fun _ _ _ _ => some "boom") (fun _ _ _ _ _ => none)
      (fun _ _ _ => none) (fun _ _ => none)).2.1 herr).1

/- ### C10 — inject failure aborts the call -/

/-- C10: if the tracer's `Inject` step inside `StartSpanFromContext` fails
for the span this invocation starts, then `otWrapper.Call`, `otWrapper.Stream`,
`otWrapper.Publish` and the handler wrapper each return exactly that error and
never invoke `next`: the result is the same for every inner client / handler
function. -/
theorem C10_inject_failure_aborts (tr g : Tracer) (ctx : Ctx)
    (req : RpcRequest) (p : Message) (rsp copts : Nat) (log : List Ev)
    (e : String) :
    (tr.inject (tr.newSpanContext (req.service ++ "." ++ req.endpoint)
        (parentOpts tr ctx [])) = .error e →
      (∀ cl : Client, (OtWrapper.mk tr cl).Call ctx req rsp copts log
        = (log ++ [.spanStart (tr.newSpanContext (req.service ++ "." ++ req.endpoint)
            (parentOpts tr ctx [])) (req.service ++ "." ++ req.endpoint)], some e)) ∧
      (∀ cl : Client, (OtWrapper.mk tr cl).Stream ctx req copts log
        = (log ++ [.spanStart (tr.newSpanContext (req.service ++ "." ++ req.endpoint)
            (parentOpts tr ctx [])) (req.service ++ "." ++ req.endpoint)],
           (none, some e))) ∧
      (∀ hf : HandlerFunc, NewHandlerWrapper g (some tr) hf ctx req rsp log
        = (log ++ [.spanStart (tr.newSpanContext (req.service ++ "." ++ req.endpoint)
            (parentOpts tr ctx [])) (req.service ++ "." ++ req.endpoint)], some e))) ∧
    (tr.inject (tr.newSpanContext ("Pub to " ++ p.topic) (parentOpts tr ctx []))
        = .error e →
      ∀ cl : Client, (OtWrapper.mk tr cl).Publish ctx p copts log
        = (log ++ [.spanStart (tr.newSpanContext ("Pub to " ++ p.topic)
            (parentOpts tr ctx [])) ("Pub to " ++ p.topic)], some e)) := by
  constructor
  · intro h
    refine ⟨?_, ?_, ?_⟩
    · intro cl
      simp [OtWrapper.Call, StartSpanFromContext, h]
    · intro cl
      simp [OtWrapper.Stream, StartSpanFromContext, h]
    · intro hf
      simp [NewHandlerWrapper, StartSpanFromContext, Option.getD_some, h]
  · intro h cl
    simp [OtWrapper.Publish, StartSpanFromContext, h]

/-- Witness for C10 with the failing tracer. -/
theorem C10_inject_failure_aborts_witness :
    trFail.inject (trFail.newSpanContext ("svc" ++ "." ++ "ep")
        (parentOpts trFail ctx0 [])) = .error "inject failed" ∧
    (OtWrapper.mk trFail client0).Call ctx0 req0 0 0 []
      = ([.spanStart (trFail.newSpanContext ("svc" ++ "." ++ "ep")
          (parentOpts trFail ctx0 [])) ("svc" ++ "." ++ "ep")],
         some "inject failed") ∧
    trFail.inject (trFail.newSpanContext ("Pub to " ++ "top")
        (parentOpts trFail ctx0 [])) = .error "inject failed" ∧
    (OtWrapper.mk trFail client0).Publish ctx0 msg0 0 []
      = ([.spanStart (trFail.newSpanContext ("Pub to " ++ "top")
          (parentOpts trFail ctx0 [])) ("Pub to " ++ "top")],
         some "inject failed") := by
  have h1 : trFail.inject (trFail.newSpanContext ("svc" ++ "." ++ "ep")
      (parentOpts trFail ctx0 [])) = .error "inject failed" := rfl
  have h2 : trFail.inject (trFail.newSpanContext ("Pub to " ++ "top")
      (parentOpts trFail ctx0 [])) = .error "inject failed" := rfl
  have hmain := C10_inject_failure_aborts trFail tr0 ctx0 req0 msg0 0 0 []
    "inject failed"
  exact ⟨h1, (hmain.1 h1).1 client0, h2, hmain.2 h2 client0⟩

/- ### C7 — Destroy releases background resources safely -/

/-- C7: calling `Destroy` once on a live configuration closes the `done`
channel, joins the background client-restart task (the wait group's wait
precedes the client close in the event trace), clears and closes the
underlying client whose `exit` channel ends up closed exactly once (the
`sync.Once` guard), a further `Close` of that client closes `exit` no second
time, and afterwards `IsAvailable` returns false. -/
theorem C7_destroy_shutdown (c : NacosDynCfg) (ncs : NacosClientS)
    (hc : c.client = some ncs) (h1 : ncs.exitClosed = false)
    (h2 : ncs.onceFired = false) (h3 : ncs.exitCloseCount = 0) :
    IsAvailable (Destroy c).1 = false ∧
    (Destroy c).1.doneClosed = true ∧
    (Destroy c).1.client = none ∧
    (Destroy c).1.bgRunning = false ∧
    (Destroy c).2.2 = [.closeDone, .wgWait, .closeClient] ∧
    (Destroy c).2.1
      = some { ncs with client := none, exitClosed := true, exitCloseCount := 1, onceFired := true } ∧
    nacosClientClose (Destroy c).2.1 = (Destroy c).2.1 := by
  have hstop : ncs.stop
      = ({ ncs with exitClosed := true, exitCloseCount := 1, onceFired := true }, false) := by
    rw [NacosClientS.stop, if_neg (by rw [h1]; exact Bool.false_ne_true)]
    rw [NacosClientS.onceDo, if_neg (by rw [h2]; exact Bool.false_ne_true)]
    rw [NacosClientS.onceClose]
    rw [h3]
  have hold : (Destroy c).2.1
      = some { ncs with client := none, exitClosed := true, exitCloseCount := 1, onceFired := true } := by
    show (nacosClientClose c.client) = _
    rw [hc]
    simp [nacosClientClose, hstop]
  refine ⟨rfl, rfl, ?_, rfl, rfl, hold, ?_⟩
  · show ({ c with client := none } : NacosDynCfg).client = none
    rfl
  · rw [hold]
    simp [nacosClientClose, NacosClientS.stop]

/-- Witness for C7 at a concrete live configuration. -/
theorem C7_destroy_shutdown_witness :
    cfg0.client = some ncs0 ∧
    ncs0.exitClosed = false ∧
    ncs0.onceFired = false ∧
    ncs0.exitCloseCount = 0 ∧
    IsAvailable (Destroy cfg0).1 = false ∧
    (Destroy cfg0).2.2 = [.closeDone, .wgWait, .closeClient] ∧
    (Destroy cfg0).2.1
      = some { ncs0 with client := none, exitClosed := true, exitCloseCount := 1, onceFired := true } := by
  have h := C7_destroy_shutdown cfg0 ncs0 rfl rfl rfl rfl
  exact ⟨rfl, rfl, rfl, rfl, h.1, h.2.2.2.2.1, h.2.2.2.2.2.1⟩

/- ### C8 — newOptions defaults and preservation -/

theorem string_length_eq_zero (s : String) : s.length = 0 ↔ s = "" := by
  cases s with
  | mk data =>
    constructor
    · intro h
      have hnil : data = [] := List.eq_nil_of_length_eq_zero h
      rw [hnil]
    · intro h
      rw [h]
      rfl

theorem defaultBroker_eq (o : ServerOptions) :
    defaultBroker o
      = { o with broker := if o.broker.isNone then some .memory else o.broker } := by
  by_cases h : o.broker.isNone <;> simp [defaultBroker, h]

theorem defaultRegistry_eq (o : ServerOptions) :
    defaultRegistry o
      = { o with registry := if o.registry.isNone then some .memory else o.registry } := by
  by_cases h : o.registry.isNone <;> simp [defaultRegistry, h]

theorem defaultTransport_eq (o : ServerOptions) :
    defaultTransport o
      = { o with transport := if o.transport.isNone then some .memory else o.transport } := by
  by_cases h : o.transport.isNone <;> simp [defaultTransport, h]

theorem defaultRegisterCheck_eq (d : ServerDefaults) (o : ServerOptions) :
    defaultRegisterCheck d o
      = { o with registerCheck :=
            if o.registerCheck.isNone then some d.registerCheck else o.registerCheck } := by
  by_cases h : o.registerCheck.isNone <;> simp [defaultRegisterCheck, h]

theorem defaultAddress_eq (d : ServerDefaults) (o : ServerOptions) :
    defaultAddress d o
      = { o with address := if o.address.length = 0 then d.address else o.address } := by
  by_cases h : o.address.length = 0 <;> simp [defaultAddress, h]

theorem defaultName_eq (d : ServerDefaults) (o : ServerOptions) :
    defaultName d o
      = { o with name := if o.name.length = 0 then d.name else o.name } := by
  by_cases h : o.name.length = 0 <;> simp [defaultName, h]

theorem defaultId_eq (d : ServerDefaults) (o : ServerOptions) :
    defaultId d o
      = { o with id := if o.id.length = 0 then d.id else o.id } := by
  by_cases h : o.id.length = 0 <;> simp [defaultId, h]

theorem defaultVersion_eq (d : ServerDefaults) (o : ServerOptions) :
    defaultVersion d o
      = { o with version := if o.version.length = 0 then d.version else o.version } := by
  by_cases h : o.version.length = 0 <;> simp [defaultVersion, h]

theorem newOptions_fields (d : ServerDefaults) (opt : List ServerOption) :
    newOptions d opt =
      { applyServerOptions opt (initServerOptions d) with
        broker :=
          if (applyServerOptions opt (initServerOptions d)).broker.isNone
          then some .memory else (applyServerOptions opt (initServerOptions d)).broker,
        registry :=
          if (applyServerOptions opt (initServerOptions d)).registry.isNone
          then some .memory else (applyServerOptions opt (initServerOptions d)).registry,
        transport :=
          if (applyServerOptions opt (initServerOptions d)).transport.isNone
          then some .memory else (applyServerOptions opt (initServerOptions d)).transport,
        registerCheck :=
          if (applyServerOptions opt (initServerOptions d)).registerCheck.isNone
          then some d.registerCheck
          else (applyServerOptions opt (initServerOptions d)).registerCheck,
        address :=
          if (applyServerOptions opt (initServerOptions d)).address.length = 0
          then d.address else (applyServerOptions opt (initServerOptions d)).address,
        name :=
          if (applyServerOptions opt (initServerOptions d)).name.length = 0
          then d.name else (applyServerOptions opt (initServerOptions d)).name,
        id :=
          if (applyServerOptions opt (initServerOptions d)).id.length = 0
          then d.id else (applyServerOptions opt (initServerOptions d)).id,
        version :=
          if (applyServerOptions opt (initServerOptions d)).version.length = 0
          then d.version else (applyServerOptions opt (initServerOptions d)).version } := by
  rw [newOptions, defaultBroker_eq, defaultRegistry_eq, defaultTransport_eq,
    defaultRegisterCheck_eq, defaultAddress_eq, defaultName_eq, defaultId_eq,
    defaultVersion_eq]

/-- C8: `newOptions` yields non-nil broker/registry/transport/register-check
(memory implementations and `DefaultRegisterCheck` when unset), non-empty
address/name/id/version (defaulted when unset, assuming the package defaults
are non-empty), register interval and TTL that start from their defaults and
are never overwritten after the options run, and every value explicitly set
by a supplied option is preserved rather than overwritten by a default. -/
theorem C8_newOptions_defaults (d : ServerDefaults) (opt : List ServerOption)
    (ha : d.address ≠ "") (hn : d.name ≠ "") (hi : d.id ≠ "") (hv : d.version ≠ "") :
    ((newOptions d opt).broker.isSome = true ∧
     (newOptions d opt).registry.isSome = true ∧
     (newOptions d opt).transport.isSome = true ∧
     (newOptions d opt).registerCheck.isSome = true) ∧
    (((applyServerOptions opt (initServerOptions d)).broker = none →
        (newOptions d opt).broker = some Broker.memory) ∧
     ((applyServerOptions opt (initServerOptions d)).registry = none →
        (newOptions d opt).registry = some Registry.memory) ∧
     ((applyServerOptions opt (initServerOptions d)).transport = none →
        (newOptions d opt).transport = some Transport.memory) ∧
     ((applyServerOptions opt (initServerOptions d)).registerCheck = none →
        (newOptions d opt).registerCheck = some d.registerCheck)) ∧
    ((newOptions d opt).address ≠ "" ∧ (newOptions d opt).name ≠ "" ∧
     (newOptions d opt).id ≠ "" ∧ (newOptions d opt).version ≠ "" ∧
     ((applyServerOptions opt (initServerOptions d)).address = "" →
        (newOptions d opt).address = d.address) ∧
     ((applyServerOptions opt (initServerOptions d)).name = "" →
        (newOptions d opt).name = d.name) ∧
     ((applyServerOptions opt (initServerOptions d)).id = "" →
        (newOptions d opt).id = d.id) ∧
     ((applyServerOptions opt (initServerOptions d)).version = "" →
        (newOptions d opt).version = d.version)) ∧
    ((initServerOptions d).registerInterval = d.registerInterval ∧
     (initServerOptions d).registerTTL = d.registerTTL ∧
     (newOptions d opt).registerInterval
       = (applyServerOptions opt (initServerOptions d)).registerInterval ∧
     (newOptions d opt).registerTTL
       = (applyServerOptions opt (initServerOptions d)).registerTTL) ∧
    ((∀ b, (applyServerOptions opt (initServerOptions d)).broker = some b →
        (newOptions d opt).broker = some b) ∧
     (∀ r, (applyServerOptions opt (initServerOptions d)).registry = some r →
        (newOptions d opt).registry = some r) ∧
     (∀ t, (applyServerOptions opt (initServerOptions d)).transport = some t →
        (newOptions d opt).transport = some t) ∧
     (∀ f, (applyServerOptions opt (initServerOptions d)).registerCheck = some f →
        (newOptions d opt).registerCheck = some f) ∧
     ((applyServerOptions opt (initServerOptions d)).address ≠ "" →
        (newOptions d opt).address
          = (applyServerOptions opt (initServerOptions d)).address) ∧
     ((applyServerOptions opt (initServerOptions d)).name ≠ "" →
        (newOptions d opt).name
          = (applyServerOptions opt (initServerOptions d)).name) ∧
     ((applyServerOptions opt (initServerOptions d)).id ≠ "" →
        (newOptions d opt).id
          = (applyServerOptions opt (initServerOptions d)).id) ∧
     ((applyServerOptions opt (initServerOptions d)).version ≠ "" →
        (newOptions d opt).version
          = (applyServerOptions opt (initServerOptions d)).version)) := by
  set mid := applyServerOptions opt (initServerOptions d) with hmid
  have hb : (newOptions d opt).broker
      = (if mid.broker.isNone then some Broker.memory else mid.broker) := by
    rw [newOptions_fields]
  have hr : (newOptions d opt).registry
      = (if mid.registry.isNone then some Registry.memory else mid.registry) := by
    rw [newOptions_fields]
  have ht : (newOptions d opt).transport
      = (if mid.transport.isNone then some Transport.memory else mid.transport) := by
    rw [newOptions_fields]
  have hrc : (newOptions d opt).registerCheck
      = (if mid.registerCheck.isNone then some d.registerCheck else mid.registerCheck) := by
    rw [newOptions_fields]
  have haddr : (newOptions d opt).address
      = (if mid.address.length = 0 then d.address else mid.address) := by
    rw [newOptions_fields]
  have hname : (newOptions d opt).name
      = (if mid.name.length = 0 then d.name else mid.name) := by
    rw [newOptions_fields]
  have hid : (newOptions d opt).id
      = (if mid.id.length = 0 then d.id else mid.id) := by
    rw [newOptions_fields]
  have hver : (newOptions d opt).version
      = (if mid.version.length = 0 then d.version else mid.version) := by
    rw [newOptions_fields]
  have hri : (newOptions d opt).registerInterval = mid.registerInterval := by
    rw [newOptions_fields]
  have httl : (newOptions d opt).registerTTL = mid.registerTTL := by
    rw [newOptions_fields]
  refine ⟨⟨?_, ?_, ?_, ?_⟩, ⟨?_, ?_, ?_, ?_⟩, ⟨?_, ?_, ?_, ?_, ?_, ?_, ?_, ?_⟩,
    ⟨rfl, rfl, hri, httl⟩, ⟨?_, ?_, ?_, ?_, ?_, ?_, ?_, ?_⟩⟩
  · rw [hb]; cases hob : mid.broker <;> simp [hob]
  · rw [hr]; cases hob : mid.registry <;> simp [hob]
  · rw [ht]; cases hob : mid.transport <;> simp [hob]
  · rw [hrc]; cases hob : mid.registerCheck <;> simp [hob]
  · intro h; rw [hb, h]; rfl
  · intro h; rw [hr, h]; rfl
  · intro h; rw [ht, h]; rfl
  · intro h; rw [hrc, h]; rfl
  · rw [haddr]
    by_cases hz : mid.address.length = 0
    · rw [if_pos hz]; exact ha
    · rw [if_neg hz]
      intro he
      exact hz ((string_length_eq_zero _).mpr he)
  · rw [hname]
    by_cases hz : mid.name.length = 0
    · rw [if_pos hz]; exact hn
    · rw [if_neg hz]
      intro he
      exact hz ((string_length_eq_zero _).mpr he)
  · rw [hid]
    by_cases hz : mid.id.length = 0
    · rw [if_pos hz]; exact hi
    · rw [if_neg hz]
      intro he
      exact hz ((string_length_eq_zero _).mpr he)
  · rw [hver]
    by_cases hz : mid.version.length = 0
    · rw [if_pos hz]; exact hv
    · rw [if_neg hz]
      intro he
      exact hz ((string_length_eq_zero _).mpr he)
  · intro h; rw [haddr, if_pos ((string_length_eq_zero _).mpr h)]
  · intro h; rw [hname, if_pos ((string_length_eq_zero _).mpr h)]
  · intro h; rw [hid, if_pos ((string_length_eq_zero _).mpr h)]
  · intro h; rw [hver, if_pos ((string_length_eq_zero _).mpr h)]
  · intro b h; rw [hb, h]; rfl
  · intro r h; rw [hr, h]; rfl
  · intro t h; rw [ht, h]; rfl
  · intro f h; rw [hrc, h]; rfl
  · intro h
    rw [haddr, if_neg (fun hz => h ((string_length_eq_zero _).mp hz))]
  · intro h
    rw [hname, if_neg (fun hz => h ((string_length_eq_zero _).mp hz))]
  · intro h
    rw [hid, if_neg (fun hz => h ((string_length_eq_zero _).mp hz))]
  · intro h
    rw [hver, if_neg (fun hz => h ((string_length_eq_zero _).mp hz))]

/-- Witness for C8: a non-empty default set and options setting an address
and a custom broker; the explicit values survive, the rest default. -/
theorem C8_newOptions_defaults_witness :
    dflt0.address ≠ "" ∧ dflt0.name ≠ "" ∧ dflt0.id ≠ "" ∧ dflt0.version ≠ "" ∧
    (newOptions dflt0 opts0).broker.isSome = true ∧
    (newOptions dflt0 opts0).broker = some (Broker.custom 5) ∧
    (newOptions dflt0 opts0).address
      = (applyServerOptions opts0 (initServerOptions dflt0)).address ∧
    (newOptions dflt0 opts0).name = dflt0.name ∧
    (newOptions dflt0 opts0).registerInterval
      = (applyServerOptions opts0 (initServerOptions dflt0)).registerInterval := by
  have h := C8_newOptions_defaults dflt0 opts0 (by decide) (by decide) (by decide)
    (by decide)
  obtain ⟨hA, hB, hC, hD, hE⟩ := h
  obtain ⟨e1, e2, e3, e4, e5, e6, e7, e8⟩ := hE
  obtain ⟨c1, c2, c3, c4, c5, c6, c7, c8⟩ := hC
  obtain ⟨d1, d2, d3, d4⟩ := hD
  exact ⟨by decide, by decide, by decide, by decide, hA.1,
    e1 (Broker.custom 5) rfl, e5 (by decide), c6 rfl, d3⟩
